import Mathlib

/-!
Verification of the World-State Engine of the World War Simulator plugin
(src/plugin.py) against its natural-language specification.

The Python module keeps the whole world in one JSON-like document
`{players, nations, alliances, last_event_time}`.  Python dicts are modelled
as association lists with unique-key dict semantics (lookup finds the first
entry, update rewrites the first entry); the alliance set, serialized as a
list of two-element lists, is modelled as a list of name pairs; a frozenset
membership test `x in alliance` becomes equality with either component.
Python ints are `Int`, Python floats (the `random.uniform` rolls, the Elo
ratings and event multipliers, timestamps) are modelled as `ℚ` with decimal
literals read exactly; `int(x)` on a float is truncation toward zero,
modelled by `truncQ`.  The Elo delta `calculate_elo_change` uses the real
function 10^x, which has no exact rational embedding, so battle resolution
takes the delta computation as an explicit functional parameter and applies
it exactly as the source does (`max(100, elo + delta)`).
-/

-- Rational arithmetic is sealed `irreducible` upstream, which prevents
-- `decide` from evaluating concrete states; restore default reducibility so
-- closed theorems about concrete game states can be checked by evaluation.
set_option allowUnsafeReducibility true
attribute [local semireducible] Rat.mul Rat.add Rat.sub Rat.inv Rat.ofScientific

/-- Truncation toward zero of a rational, the behaviour of Python `int()`
on a float value. -/
def truncQ (q : ℚ) : Int :=
  if 0 ≤ q.num then ((q.num.toNat / q.den : Nat) : Int)
  else -(((-q.num).toNat / q.den : Nat) : Int)

/-- A player record: `game_state["players"][user_id]`. -/
structure Player where
  user_id : String
  nation : Option String
  rank : String
deriving DecidableEq

/-- A nation record: `game_state["nations"][name]`. -/
structure Nation where
  name : String
  troops : Int
  territory : Int
  population : Int
  elo : ℚ
  leader : Option String
  members : List String
  ideology : String
  deployed_troops : Int
deriving DecidableEq

/-- The whole persisted world document. -/
structure GameState where
  players : List (String × Player)
  nations : List (String × Nation)
  alliances : List (String × String)
  last_event_time : ℚ
deriving DecidableEq

/-- First-match lookup in an association list (Python dict access). -/
def lookupA {α : Type} : List (String × α) → String → Option α
  | [], _ => none
  | p :: rest, k => if p.1 = k then some p.2 else lookupA rest k

/-- Rewrite the first entry with the given key (Python dict item mutation). -/
def updA {α : Type} : List (String × α) → String → (α → α) → List (String × α)
  | [], _, _ => []
  | p :: rest, k, f => if p.1 = k then (p.1, f p.2) :: rest else p :: updA rest k f

/-- `get_player_info(game_state, user_id)`. -/
def get_player_info (s : GameState) (uid : String) : Option Player :=
  lookupA s.players uid

/-- `get_player_nation(game_state, user_id)`. -/
def get_player_nation (s : GameState) (uid : String) : Option String :=
  (get_player_info s uid).bind Player.nation

/-- `get_nation_info(game_state, nation_name)`. -/
def get_nation_info (s : GameState) (n : String) : Option Nation :=
  lookupA s.nations n

/-- `are_allies(game_state, nation1, nation2)`: scan every stored alliance
pair and test that both names are members of it. -/
def are_allies (s : GameState) (n1 n2 : String) : Bool :=
  s.alliances.any fun p =>
    decide ((n1 = p.1 ∨ n1 = p.2) ∧ (n2 = p.1 ∨ n2 = p.2))

-- Basic lemmas about lookup and update.

theorem lookupA_upd_self {α : Type} (l : List (String × α)) (k : String) (f : α → α) :
    lookupA (updA l k f) k = (lookupA l k).map f := by
  induction l with
  | nil => rfl
  | cons p rest ih =>
    by_cases h : p.1 = k
    · simp [updA, lookupA, h]
    · simp [updA, lookupA, h, ih]

theorem lookupA_upd_other {α : Type} (l : List (String × α)) (k k' : String)
    (f : α → α) (h : k' ≠ k) : lookupA (updA l k f) k' = lookupA l k' := by
  induction l with
  | nil => rfl
  | cons p rest ih =>
    simp only [updA]
    by_cases hp : p.1 = k
    · rw [if_pos hp]
      have hnp : ¬ p.1 = k' := by rw [hp]; exact fun hk => h hk.symm
      simp only [lookupA, if_neg hnp]
    · rw [if_neg hp]
      simp only [lookupA]
      by_cases hp' : p.1 = k'
      · rw [if_pos hp', if_pos hp']
      · rw [if_neg hp', if_neg hp', ih]

theorem mem_updA {α : Type} (l : List (String × α)) (k : String) (f : α → α)
    (p : String × α) (hp : p ∈ updA l k f) :
    p ∈ l ∨ ∃ v, lookupA l k = some v ∧ p = (k, f v) := by
  induction l with
  | nil => simp [updA] at hp
  | cons q rest ih =>
    by_cases h : q.1 = k
    · simp only [updA, if_pos h] at hp
      rcases List.mem_cons.mp hp with h1 | h1
      · right
        exact ⟨q.2, by simp [lookupA, h], by rw [h1, h]⟩
      · left; exact List.mem_cons_of_mem _ h1
    · simp only [updA, if_neg h] at hp
      rcases List.mem_cons.mp hp with h1 | h1
      · left; exact h1 ▸ List.mem_cons_self _ _
      · rcases ih h1 with h2 | ⟨v, hv, hpv⟩
        · left; exact List.mem_cons_of_mem _ h2
        · right; exact ⟨v, by simp [lookupA, h, hv], hpv⟩

theorem updA_updA {α : Type} (l : List (String × α)) (k : String) (f g : α → α) :
    updA (updA l k f) k g = updA l k (fun v => g (f v)) := by
  induction l with
  | nil => rfl
  | cons p rest ih =>
    by_cases h : p.1 = k
    · simp [updA, h]
    · simp [updA, h, ih]

theorem updA_congr_id {α : Type} (l : List (String × α)) (k : String) (f : α → α)
    (h : ∀ v, f v = v) : updA l k f = l := by
  induction l with
  | nil => rfl
  | cons p rest ih =>
    simp only [updA]
    by_cases hp : p.1 = k
    · rw [if_pos hp, h p.2]
    · rw [if_neg hp, ih]

theorem lookupA_mem {α : Type} (l : List (String × α)) (k : String) (v : α)
    (h : lookupA l k = some v) : (k, v) ∈ l := by
  induction l with
  | nil => simp [lookupA] at h
  | cons p rest ih =>
    simp only [lookupA] at h
    by_cases hp : p.1 = k
    · rw [if_pos hp] at h
      injection h with h2
      exact List.mem_cons.mpr (Or.inl (by rw [← hp, ← h2]))
    · rw [if_neg hp] at h
      exact List.mem_cons_of_mem _ (ih h)

-- Characterization of the alliance membership test.

theorem are_allies_iff (s : GameState) (n1 n2 : String) :
    are_allies s n1 n2 = true ↔
      ∃ p ∈ s.alliances, (n1 = p.1 ∨ n1 = p.2) ∧ (n2 = p.1 ∨ n2 = p.2) := by
  simp [are_allies, List.any_eq_true]

-- Lemmas about truncation.

theorem truncQ_nonneg (q : ℚ) (h : 0 ≤ q) : 0 ≤ truncQ q := by
  have hn : 0 ≤ q.num := Rat.num_nonneg.mpr h
  rw [truncQ, if_pos hn]
  exact Int.natCast_nonneg _

theorem truncQ_eq_zero (q : ℚ) (h0 : 0 ≤ q) (h1 : q < 1) : truncQ q = 0 := by
  have hn : 0 ≤ q.num := Rat.num_nonneg.mpr h0
  have hlt : q.num < q.den := Rat.lt_one_iff_num_lt_denom.mp h1
  have hlt' : q.num.toNat < q.den := by omega
  rw [truncQ, if_pos hn, Nat.div_eq_of_lt hlt']
  rfl

/-- Claim C5 counterexample state: one alliance pair `("A","B")`. -/
def stateC5 : GameState :=
  { players := [], nations := [], alliances := [("A", "B")], last_event_time := 0 }

/-- Claim C5 (counterexample): in a state whose alliance set holds the single
pair `{A,B}`, `are_allies(s, "A", "A")` evaluates to `true` although no pair
`{A,A}` is stored — the claim's assertion that `AreAllies(s, A, A)` is false
for every `A` fails on this concrete input. -/
theorem are_allies_self_true_cex :
    are_allies stateC5 "A" "A" = true ∧ ("A", "A") ∉ stateC5.alliances := by
  constructor
  · decide
  · decide

/-- Claim C5 (amended): `AreAllies(s, A, B)` is true iff some stored alliance
pair contains both `A` and `B` as members (in either component); hence for
`A ≠ B` this is presence of the unordered pair `{A,B}`, but
`AreAllies(s, A, A)` is true exactly when `A` belongs to any alliance. -/
theorem are_allies_spec (s : GameState) (a b : String) :
    are_allies s a b = true ↔
      ∃ p ∈ s.alliances, (a = p.1 ∨ a = p.2) ∧ (b = p.1 ∨ b = p.2) :=
  are_allies_iff s a b

/-- Claim C7: the alliance test is symmetric in its two nation arguments,
whatever order the pairs were stored in. -/
theorem are_allies_symm (s : GameState) (a b : String) :
    are_allies s a b = are_allies s b a := by
  rw [Bool.eq_iff_iff, are_allies_iff, are_allies_iff]
  constructor
  · rintro ⟨p, hp, h1, h2⟩; exact ⟨p, hp, h2, h1⟩
  · rintro ⟨p, hp, h1, h2⟩; exact ⟨p, hp, h2, h1⟩

/-! ## Garrison/Deployment manager (`DeployCommand.execute`) -/

/-- Outcome of `/deploy`; mirrors the command's reply paths.  In the Python
code a player whose `nation` field names a nonexistent nation record makes
`player_nation_info.get(...)` raise; that path is modelled as `crash`. -/
inductive DeployResult where
  | noNation
  | crash
  | withdrawTooMany
  | insufficient
  | ok (newDeployed : Int)
deriving DecidableEq

/-- `DeployCommand.execute`: adjust the caller nation's `deployed_troops` by
`delta`, rejecting (with no mutation and no save) when the new count would be
negative or exceed `troops`.  The third component records whether
`_save_game_data` ran. -/
def deploy (s : GameState) (uid : String) (delta : Int) :
    DeployResult × GameState × Bool :=
  match get_player_nation s uid with
  | none => (.noNation, s, false)
  | some pn =>
    match get_nation_info s pn with
    | none => (.crash, s, false)
    | some ni =>
      let nd := ni.deployed_troops + delta
      if nd < 0 then (.withdrawTooMany, s, false)
      else if ni.troops < nd then (.insufficient, s, false)
      else (.ok nd,
        { s with nations :=
            (updA s.nations pn (fun n => { n with deployed_troops := nd })) },
        true)

/-- Claim C8 scenario nation: troops 100, all of them deployed. -/
def nationC8 : Nation :=
  { name := "C", troops := 100, territory := 15, population := 1000000,
    elo := 1500, leader := some "u", members := ["u"], ideology := "共和",
    deployed_troops := 100 }

/-- Claim C8 scenario state. -/
def stateC8 : GameState :=
  { players := [("u", { user_id := "u", nation := some "C", rank := "士兵" })],
    nations := [("C", nationC8)], alliances := [], last_event_time := 0 }

/-- Claim C8: `AdjustDeployment` saves (accepts) exactly when
`0 ≤ currentDeployed + delta ≤ troops`; a rejection leaves the state
untouched; on success the nation's `deployed_troops` becomes
`currentDeployed + delta`.  Moreover, in the spec's concrete scenario
(troops 100, deployed 100), delta −150 is rejected with no mutation and
delta −100 succeeds, yielding deployed 0. -/
theorem adjust_deployment_spec :
    (∀ (s : GameState) (uid : String) (δ : Int) (pn : String) (ni : Nation),
      get_player_nation s uid = some pn → get_nation_info s pn = some ni →
      ((deploy s uid δ).2.2 = true ↔
          0 ≤ ni.deployed_troops + δ ∧ ni.deployed_troops + δ ≤ ni.troops)
      ∧ ((deploy s uid δ).2.2 = false → (deploy s uid δ).2.1 = s)
      ∧ ((deploy s uid δ).2.2 = true →
          (deploy s uid δ).1 = .ok (ni.deployed_troops + δ)
          ∧ get_nation_info (deploy s uid δ).2.1 pn
              = some { ni with deployed_troops := ni.deployed_troops + δ }))
    ∧ (deploy stateC8 "u" (-150)).1 = .withdrawTooMany
    ∧ (deploy stateC8 "u" (-150)).2.1 = stateC8
    ∧ (get_nation_info (deploy stateC8 "u" (-100)).2.1 "C").map
        Nation.deployed_troops = some 0 := by
  refine ⟨?_, by decide, by decide, by decide⟩
  intro s uid δ pn ni h1 h2
  by_cases hneg : ni.deployed_troops + δ < 0
  · have hd : deploy s uid δ = (.withdrawTooMany, s, false) := by
      simp only [deploy, h1, h2, if_pos hneg]
    rw [hd]
    refine ⟨⟨fun h => by simp at h, fun ⟨h3, _⟩ => by exfalso; omega⟩,
      fun _ => rfl, fun h => by simp at h⟩
  · by_cases hins : ni.troops < ni.deployed_troops + δ
    · have hd : deploy s uid δ = (.insufficient, s, false) := by
        simp only [deploy, h1, h2, if_neg hneg, if_pos hins]
      rw [hd]
      refine ⟨⟨fun h => by simp at h, fun ⟨_, h4⟩ => by exfalso; omega⟩,
        fun _ => rfl, fun h => by simp at h⟩
    · have hd : deploy s uid δ = (.ok (ni.deployed_troops + δ),
          { s with nations := (updA s.nations pn
              (fun n => { n with deployed_troops := ni.deployed_troops + δ })) },
          true) := by
        simp only [deploy, h1, h2, if_neg hneg, if_neg hins]
      rw [hd]
      refine ⟨⟨fun _ => ⟨by omega, by omega⟩, fun _ => rfl⟩,
        fun h => by simp at h, fun _ => ⟨rfl, ?_⟩⟩
      rw [get_nation_info] at h2
      show lookupA (updA s.nations pn
        (fun n => { n with deployed_troops := ni.deployed_troops + δ })) pn = _
      rw [lookupA_upd_self, h2]
      rfl

/-- Witness for claim C8: the scenario's accepting call is accepted. -/
theorem adjust_deployment_spec_witness : (deploy stateC8 "u" (-100)).2.2 = true :=
  (adjust_deployment_spec.1 stateC8 "u" (-100) "C" nationC8 rfl rfl).1.mpr
    (by decide)

/-- Decidable check: every nation of the state satisfies the spec's
deployment invariant `0 ≤ deployed_troops ≤ troops`. -/
def deployment_bounds_ok (s : GameState) : Bool :=
  s.nations.all fun p =>
    decide (0 ≤ p.2.deployed_troops ∧ p.2.deployed_troops ≤ p.2.troops)

theorem deployment_bounds_ok_iff (s : GameState) :
    deployment_bounds_ok s = true ↔
      ∀ p ∈ s.nations, 0 ≤ p.2.deployed_troops ∧
        p.2.deployed_troops ≤ p.2.troops := by
  simp [deployment_bounds_ok, List.all_eq_true]

/-- Claim C2 (amended): `AdjustDeployment` preserves the invariant
`0 ≤ deployed_troops ≤ troops` for every nation, whether it accepts or
rejects.  (Battle, Raid and random events do not preserve it — see the
counterexample theorem.) -/
theorem adjust_deployment_preserves_bound (s : GameState) (uid : String)
    (δ : Int) (hb : deployment_bounds_ok s = true) :
    deployment_bounds_ok (deploy s uid δ).2.1 = true := by
  have hinv := (deployment_bounds_ok_iff s).mp hb
  rw [deployment_bounds_ok_iff]
  intro p hp
  rcases hpn : get_player_nation s uid with _ | pn
  · simp only [deploy, hpn] at hp
    exact hinv p hp
  · rcases hni : get_nation_info s pn with _ | ni
    · simp only [deploy, hpn, hni] at hp
      exact hinv p hp
    · simp only [deploy, hpn, hni] at hp
      by_cases hneg : ni.deployed_troops + δ < 0
      · rw [if_pos hneg] at hp
        exact hinv p hp
      · by_cases hins : ni.troops < ni.deployed_troops + δ
        · rw [if_neg hneg, if_pos hins] at hp
          exact hinv p hp
        · rw [if_neg hneg, if_neg hins] at hp
          simp only at hp
          rcases mem_updA _ _ _ _ hp with h | ⟨v, hv, rfl⟩
          · exact hinv p h
          · rw [get_nation_info] at hni
            rw [hv] at hni
            injection hni with hni
            subst hni
            constructor
            · simp only; omega
            · simp only; omega

/-- Witness for claim C2's amended theorem: preservation at a concrete
accepting call. -/
theorem adjust_deployment_preserves_bound_witness :
    deployment_bounds_ok (deploy stateC8 "u" (-100)).2.1 = true :=
  adjust_deployment_preserves_bound stateC8 "u" (-100) (by decide)

/-! ## Combat resolution (`PvpCommand.execute` and `ConquerCommand.execute`) -/

/-- `effective_defense_troops = max(1, troops - deployed_troops)` of the
defending nation. -/
def effective_defense (tn : Nation) : Int :=
  max 1 (tn.troops - tn.deployed_troops)

/-- Outcome of `/pvp`.  `win`/`lose` carry (attacker loss, defender loss).
A player whose `nation` names a missing nation record makes the Python code
raise at the troops check; that path is `attackerRecordMissing`. -/
inductive PvpResult where
  | noNation
  | targetMissing
  | selfAttack
  | alliedTarget
  | nonPositiveTroops
  | attackerRecordMissing
  | insufficientTroops
  | win (attackerLoss defenderLoss : Int)
  | lose (attackerLoss defenderLoss : Int)
deriving DecidableEq

/-- `PvpCommand.execute`.  `c` is the committed troop count; `ra`, `rb` are
the two `random.uniform(0.8, 1.2)` rolls; `ech` abstracts
`calculate_elo_change(eloA, eloB, score)` (its value is applied exactly as
the source does: `elo := max(100, elo + delta)`).  The Bool records whether
`_save_game_data` ran. -/
def pvp (s : GameState) (uid tgt : String) (c : Int) (ra rb : ℚ)
    (ech : ℚ → ℚ → ℚ → ℚ × ℚ) : PvpResult × GameState × Bool :=
  match get_player_nation s uid with
  | none => (.noNation, s, false)
  | some an =>
    match get_nation_info s tgt with
    | none => (.targetMissing, s, false)
    | some tn =>
      if an = tgt then (.selfAttack, s, false)
      else if are_allies s an tgt then (.alliedTarget, s, false)
      else if c ≤ 0 then (.nonPositiveTroops, s, false)
      else match get_nation_info s an with
        | none => (.attackerRecordMissing, s, false)
        | some ani =>
          if ani.troops < c then (.insufficientTroops, s, false)
          else if (effective_defense tn : ℚ) * rb < (c : ℚ) * ra then
            (.win (min (truncQ ((effective_defense tn : ℚ) * (2/10))) c)
                  (min (truncQ ((c : ℚ) * (3/10))) tn.troops),
             { s with nations := (updA (updA s.nations an (fun n =>
                 { n with
                     troops := n.troops -
                       min (truncQ ((effective_defense tn : ℚ) * (2/10))) c,
                     elo := max 100 (n.elo + (ech ani.elo tn.elo 1).1) }))
               tgt (fun n =>
                 { n with
                     troops := n.troops -
                       min (truncQ ((c : ℚ) * (3/10))) tn.troops,
                     elo := max 100 (n.elo + (ech ani.elo tn.elo 1).2) })) },
             true)
          else
            (.lose (min (truncQ ((effective_defense tn : ℚ) * (3/10))) c)
                   (min (truncQ ((c : ℚ) * (2/10))) (effective_defense tn)),
             { s with nations := (updA (updA s.nations an (fun n =>
                 { n with
                     troops := n.troops -
                       min (truncQ ((effective_defense tn : ℚ) * (3/10))) c,
                     elo := max 100 (n.elo + (ech ani.elo tn.elo 0).1) }))
               tgt (fun n =>
                 { n with
                     troops := n.troops -
                       min (truncQ ((c : ℚ) * (2/10))) (effective_defense tn),
                     elo := max 100 (n.elo + (ech ani.elo tn.elo 0).2) })) },
             true)

/-- Outcome of `/conquer`.  `win` carries (attacker loss, defender loss,
territory gained); `lose` carries (attacker loss, defender loss, territory
lost by the attacker). -/
inductive ConquerResult where
  | noNation
  | targetMissing
  | selfAttack
  | alliedTarget
  | nonPositiveTroops
  | attackerRecordMissing
  | insufficientTroops
  | win (attackerLoss defenderLoss territoryGained : Int)
  | lose (attackerLoss defenderLoss territoryLost : Int)
deriving DecidableEq

/-- `ConquerCommand.execute`: like `pvp` but with raid coefficients and a
territory transfer clamped at 1 on the losing side. -/
def conquer (s : GameState) (uid tgt : String) (c : Int) (ra rb : ℚ)
    (ech : ℚ → ℚ → ℚ → ℚ × ℚ) : ConquerResult × GameState × Bool :=
  match get_player_nation s uid with
  | none => (.noNation, s, false)
  | some an =>
    match get_nation_info s tgt with
    | none => (.targetMissing, s, false)
    | some tn =>
      if an = tgt then (.selfAttack, s, false)
      else if are_allies s an tgt then (.alliedTarget, s, false)
      else if c ≤ 0 then (.nonPositiveTroops, s, false)
      else match get_nation_info s an with
        | none => (.attackerRecordMissing, s, false)
        | some ani =>
          if ani.troops < c then (.insufficientTroops, s, false)
          else if (effective_defense tn : ℚ) * rb < (c : ℚ) * ra then
            (.win (min (truncQ ((effective_defense tn : ℚ) * (15/100))) c)
                  (min (truncQ ((c : ℚ) * (2/10))) tn.troops)
                  (max 1 (truncQ ((tn.territory : ℚ) * (5/100)))),
             { s with nations := (updA (updA s.nations an (fun n =>
                 { n with
                     troops := n.troops -
                       min (truncQ ((effective_defense tn : ℚ) * (15/100))) c,
                     territory := n.territory +
                       max 1 (truncQ ((tn.territory : ℚ) * (5/100))),
                     elo := max 100 (n.elo + (ech ani.elo tn.elo 1).1) }))
               tgt (fun n =>
                 { n with
                     troops := n.troops -
                       min (truncQ ((c : ℚ) * (2/10))) tn.troops,
                     territory := max 1 (n.territory -
                       max 1 (truncQ ((tn.territory : ℚ) * (5/100)))),
                     elo := max 100 (n.elo + (ech ani.elo tn.elo 1).2) })) },
             true)
          else
            (.lose (min (truncQ ((effective_defense tn : ℚ) * (2/10))) c)
                   (min (truncQ ((c : ℚ) * (15/100))) (effective_defense tn))
                   (max 1 (truncQ ((ani.territory : ℚ) * (3/100)))),
             { s with nations := (updA (updA s.nations an (fun n =>
                 { n with
                     troops := n.troops -
                       min (truncQ ((effective_defense tn : ℚ) * (2/10))) c,
                     territory := max 1 (n.territory -
                       max 1 (truncQ ((ani.territory : ℚ) * (3/100)))),
                     elo := max 100 (n.elo + (ech ani.elo tn.elo 0).1) }))
               tgt (fun n =>
                 { n with
                     troops := n.troops -
                       min (truncQ ((c : ℚ) * (15/100))) (effective_defense tn),
                     territory := n.territory +
                       max 1 (truncQ ((ani.territory : ℚ) * (3/100))),
                     elo := max 100 (n.elo + (ech ani.elo tn.elo 0).2) })) },
             true)

/-- A concrete stand-in for the abstracted Elo-delta computation, used in
concrete evaluations (the troop and territory fields never depend on it). -/
def ech0 : ℚ → ℚ → ℚ → ℚ × ℚ := fun _ _ _ => (0, 0)

/-- Claim C1 attacker nation: 100 troops, none deployed. -/
def nA100 : Nation :=
  { name := "A", troops := 100, territory := 15, population := 1000000,
    elo := 1500, leader := some "u", members := ["u"], ideology := "共和",
    deployed_troops := 0 }

/-- Claim C1 defender nation: 100 troops, none deployed. -/
def nB100 : Nation :=
  { name := "B", troops := 100, territory := 15, population := 1000000,
    elo := 1500, leader := none, members := [], ideology := "民主",
    deployed_troops := 0 }

/-- Claim C1 concrete state: player `u` leads nation `A`; nation `B` exists;
no alliances. -/
def stateC1 : GameState :=
  { players := [("u", { user_id := "u", nation := some "A", rank := "士兵" })],
    nations := [("A", nA100), ("B", nB100)], alliances := [],
    last_event_time := 0 }

/-- Claim C1 (counterexample): committed `c = 10` against effective defense
`d = 100` with both rolls 1 (a losing battle: 10 ≤ 100).  The code takes
10 troops from the attacker and 2 from the defender, while the claim's
formulas predict attacker loss `min(trunc(0.2·10), 100) = 2` and defender
loss `min(trunc(0.3·100), 10) = 10` — exactly swapped. -/
theorem battle_lose_casualties_cex :
    (pvp stateC1 "u" "B" 10 1 1 ech0).1 = PvpResult.lose 10 2
    ∧ (get_nation_info (pvp stateC1 "u" "B" 10 1 1 ech0).2.1 "A").map
        Nation.troops = some 90
    ∧ (get_nation_info (pvp stateC1 "u" "B" 10 1 1 ech0).2.1 "B").map
        Nation.troops = some 98
    ∧ min (truncQ ((10 : ℚ) * (2/10))) (effective_defense nB100) = 2
    ∧ min (truncQ ((effective_defense nB100 : ℚ) * (3/10))) 10 = 10
    ∧ (90 : Int) ≠ 100 - 2 := by
  refine ⟨by decide, by decide, by decide, by decide, by decide, by decide⟩

-- Branch equations for `pvp`: under the preconditions, the call reduces to
-- the explicit winning or losing tuple.

theorem pvp_lose_state (s : GameState) (uid tgt : String) (c : Int) (ra rb : ℚ)
    (ech : ℚ → ℚ → ℚ → ℚ × ℚ) (an : String) (tn ani : Nation)
    (h1 : get_player_nation s uid = some an)
    (h2 : get_nation_info s tgt = some tn)
    (h3 : an ≠ tgt)
    (h4 : are_allies s an tgt = false)
    (h5 : 0 < c)
    (h6 : get_nation_info s an = some ani)
    (h7 : c ≤ ani.troops)
    (h8 : (c : ℚ) * ra ≤ (effective_defense tn : ℚ) * rb) :
    pvp s uid tgt c ra rb ech =
      (.lose (min (truncQ ((effective_defense tn : ℚ) * (3/10))) c)
             (min (truncQ ((c : ℚ) * (2/10))) (effective_defense tn)),
       { s with nations := (updA (updA s.nations an (fun n =>
           { n with
               troops := n.troops -
                 min (truncQ ((effective_defense tn : ℚ) * (3/10))) c,
               elo := max 100 (n.elo + (ech ani.elo tn.elo 0).1) }))
         tgt (fun n =>
           { n with
               troops := n.troops -
                 min (truncQ ((c : ℚ) * (2/10))) (effective_defense tn),
               elo := max 100 (n.elo + (ech ani.elo tn.elo 0).2) })) },
       true) := by
  have hall : ¬ (are_allies s an tgt = true) := by rw [h4]; simp
  have hc : ¬ c ≤ 0 := by omega
  have htr : ¬ ani.troops < c := by omega
  have hpow : ¬ ((effective_defense tn : ℚ) * rb < (c : ℚ) * ra) :=
    not_lt.mpr h8
  simp only [pvp, h1, h2, if_neg h3, if_neg hall, if_neg hc, h6, if_neg htr,
    if_neg hpow]

theorem pvp_win_state (s : GameState) (uid tgt : String) (c : Int) (ra rb : ℚ)
    (ech : ℚ → ℚ → ℚ → ℚ × ℚ) (an : String) (tn ani : Nation)
    (h1 : get_player_nation s uid = some an)
    (h2 : get_nation_info s tgt = some tn)
    (h3 : an ≠ tgt)
    (h4 : are_allies s an tgt = false)
    (h5 : 0 < c)
    (h6 : get_nation_info s an = some ani)
    (h7 : c ≤ ani.troops)
    (h8 : (effective_defense tn : ℚ) * rb < (c : ℚ) * ra) :
    pvp s uid tgt c ra rb ech =
      (.win (min (truncQ ((effective_defense tn : ℚ) * (2/10))) c)
            (min (truncQ ((c : ℚ) * (3/10))) tn.troops),
       { s with nations := (updA (updA s.nations an (fun n =>
           { n with
               troops := n.troops -
                 min (truncQ ((effective_defense tn : ℚ) * (2/10))) c,
               elo := max 100 (n.elo + (ech ani.elo tn.elo 1).1) }))
         tgt (fun n =>
           { n with
               troops := n.troops -
                 min (truncQ ((c : ℚ) * (3/10))) tn.troops,
               elo := max 100 (n.elo + (ech ani.elo tn.elo 1).2) })) },
       true) := by
  have hall : ¬ (are_allies s an tgt = true) := by rw [h4]; simp
  have hc : ¬ c ≤ 0 := by omega
  have htr : ¬ ani.troops < c := by omega
  simp only [pvp, h1, h2, if_neg h3, if_neg hall, if_neg hc, h6, if_neg htr,
    if_pos h8]

-- Looking up the two combatants after the double update.

theorem lookup_after_combat (ns : List (String × Nation)) (an tgt : String)
    (f g : Nation → Nation) (tn ani : Nation)
    (h3 : an ≠ tgt)
    (h2 : lookupA ns tgt = some tn)
    (h6 : lookupA ns an = some ani) :
    lookupA (updA (updA ns an f) tgt g) an = some (f ani)
    ∧ lookupA (updA (updA ns an f) tgt g) tgt = some (g tn) := by
  constructor
  · rw [lookupA_upd_other _ _ _ _ h3, lookupA_upd_self, h6]
    rfl
  · rw [lookupA_upd_self, lookupA_upd_other _ _ _ _ (fun h => h3 h.symm), h2]
    rfl

/-- Claim C1 (amended): in a lost battle (`attackPower ≤ defensePower`) whose
preconditions pass, the attacker's nation loses
`min(trunc(0.3·effectiveDefense), committed)` troops and the defender's
nation loses `min(trunc(0.2·committed), effectiveDefense)` troops — the two
formulas of the spec's Battle/lose row, swapped between the sides. -/
theorem battle_lose_casualties (s : GameState) (uid tgt : String) (c : Int)
    (ra rb : ℚ) (ech : ℚ → ℚ → ℚ → ℚ × ℚ) (an : String) (tn ani : Nation)
    (h1 : get_player_nation s uid = some an)
    (h2 : get_nation_info s tgt = some tn)
    (h3 : an ≠ tgt)
    (h4 : are_allies s an tgt = false)
    (h5 : 0 < c)
    (h6 : get_nation_info s an = some ani)
    (h7 : c ≤ ani.troops)
    (h8 : (c : ℚ) * ra ≤ (effective_defense tn : ℚ) * rb) :
    (pvp s uid tgt c ra rb ech).1 =
      .lose (min (truncQ ((effective_defense tn : ℚ) * (3/10))) c)
            (min (truncQ ((c : ℚ) * (2/10))) (effective_defense tn))
    ∧ (get_nation_info (pvp s uid tgt c ra rb ech).2.1 an).map Nation.troops
        = some (ani.troops -
            min (truncQ ((effective_defense tn : ℚ) * (3/10))) c)
    ∧ (get_nation_info (pvp s uid tgt c ra rb ech).2.1 tgt).map Nation.troops
        = some (tn.troops -
            min (truncQ ((c : ℚ) * (2/10))) (effective_defense tn)) := by
  have hd := pvp_lose_state s uid tgt c ra rb ech an tn ani
    h1 h2 h3 h4 h5 h6 h7 h8
  rw [hd]
  rw [get_nation_info] at h2 h6
  have hl := lookup_after_combat s.nations an tgt
    (fun n =>
      { n with
          troops := n.troops -
            min (truncQ ((effective_defense tn : ℚ) * (3/10))) c,
          elo := max 100 (n.elo + (ech ani.elo tn.elo 0).1) })
    (fun n =>
      { n with
          troops := n.troops -
            min (truncQ ((c : ℚ) * (2/10))) (effective_defense tn),
          elo := max 100 (n.elo + (ech ani.elo tn.elo 0).2) })
    tn ani h3 h2 h6
  exact ⟨rfl, by rw [get_nation_info, hl.1]; rfl,
    by rw [get_nation_info, hl.2]; rfl⟩

/-- Witness for claim C1's amended theorem at the concrete losing battle of
`stateC1`. -/
theorem battle_lose_casualties_witness :
    (pvp stateC1 "u" "B" 10 1 1 ech0).1 =
      PvpResult.lose (min (truncQ ((effective_defense nB100 : ℚ) * (3/10))) 10)
        (min (truncQ ((10 : ℚ) * (2/10))) (effective_defense nB100)) :=
  (battle_lose_casualties stateC1 "u" "B" 10 1 1 ech0 "A" nB100 nA100
    rfl rfl (by decide) (by decide) (by decide) rfl (by decide) (by decide)).1

/-- Claim C9: a battle against an allied target is rejected with the
allied-target reason, the state is returned exactly as loaded (players,
nations, alliances, `last_event_time` all identical) and nothing is
persisted (the save flag is `false`), for every committed count, every pair
of rolls and every Elo computation. -/
theorem battle_allied_rejected (s : GameState) (uid tgt : String) (c : Int)
    (ra rb : ℚ) (ech : ℚ → ℚ → ℚ → ℚ × ℚ) (an : String) (tn : Nation)
    (h1 : get_player_nation s uid = some an)
    (h2 : get_nation_info s tgt = some tn)
    (h3 : an ≠ tgt)
    (h4 : are_allies s an tgt = true) :
    pvp s uid tgt c ra rb ech = (.alliedTarget, s, false) := by
  simp only [pvp, h1, h2, if_neg h3, if_pos h4]

/-- Claim C9 concrete state: `u` belongs to `X`, nations `X` and `Y` are
allied. -/
def stateC9 : GameState :=
  { players := [("u", { user_id := "u", nation := some "X", rank := "士兵" })],
    nations :=
      [("X", { name := "X", troops := 1000, territory := 15,
               population := 1000000, elo := 1500, leader := some "u",
               members := ["u"], ideology := "联邦", deployed_troops := 0 }),
       ("Y", { name := "Y", troops := 1000, territory := 15,
               population := 1000000, elo := 1500, leader := none,
               members := [], ideology := "共和", deployed_troops := 0 })],
    alliances := [("X", "Y")], last_event_time := 0 }

/-- Witness for claim C9 at the concrete allied pair of `stateC9`. -/
theorem battle_allied_rejected_witness :
    pvp stateC9 "u" "Y" 500 1 1 ech0 = (.alliedTarget, stateC9, false) :=
  battle_allied_rejected stateC9 "u" "Y" 500 1 1 ech0 "X"
    { name := "Y", troops := 1000, territory := 15, population := 1000000,
      elo := 1500, leader := none, members := [], ideology := "共和",
      deployed_troops := 0 }
    rfl rfl (by decide) (by decide)

/-- The spec's deployment invariant, `deployed_troops ≤ troops` for every
nation of the state, as a decidable check. -/
def deployed_within_troops (s : GameState) : Bool :=
  s.nations.all fun p => decide (p.2.deployed_troops ≤ p.2.troops)

/-- Claim C2 attacker nation: 1000 troops. -/
def nAtk : Nation :=
  { name := "A", troops := 1000, territory := 15, population := 1000000,
    elo := 1500, leader := some "u", members := ["u"], ideology := "军国主义",
    deployed_troops := 0 }

/-- Claim C2 defender nation: 1000 troops, 900 of them deployed. -/
def nDef : Nation :=
  { name := "B", troops := 1000, territory := 15, population := 1000000,
    elo := 1500, leader := none, members := [], ideology := "民主",
    deployed_troops := 900 }

/-- Claim C2 concrete state: the invariant `deployed ≤ troops` holds. -/
def stateC2 : GameState :=
  { players := [("u", { user_id := "u", nation := some "A", rank := "士兵" })],
    nations := [("A", nAtk), ("B", nDef)], alliances := [],
    last_event_time := 0 }

/-- Claim C2 (counterexample): `deployed_troops ≤ troops` holds in `stateC2`
but fails after a single winning battle: the defender (1000 troops, 900
deployed, effective defense 100) loses `min(trunc(0.3·1000), 1000) = 300`
troops, ending with 700 troops yet still 900 deployed.  Battle mutates
`troops` without ever adjusting `deployed_troops`. -/
theorem battle_breaks_deployment_bound_cex :
    deployed_within_troops stateC2 = true
    ∧ deployed_within_troops (pvp stateC2 "u" "B" 1000 1 1 ech0).2.1 = false
    ∧ (get_nation_info (pvp stateC2 "u" "B" 1000 1 1 ech0).2.1 "B").map
        Nation.troops = some 700
    ∧ (get_nation_info (pvp stateC2 "u" "B" 1000 1 1 ech0).2.1 "B").map
        Nation.deployed_troops = some 900 := by
  refine ⟨by decide, by decide, by decide, by decide⟩

-- Branch equations for `conquer`.

theorem conquer_win_state (s : GameState) (uid tgt : String) (c : Int)
    (ra rb : ℚ) (ech : ℚ → ℚ → ℚ → ℚ × ℚ) (an : String) (tn ani : Nation)
    (h1 : get_player_nation s uid = some an)
    (h2 : get_nation_info s tgt = some tn)
    (h3 : an ≠ tgt)
    (h4 : are_allies s an tgt = false)
    (h5 : 0 < c)
    (h6 : get_nation_info s an = some ani)
    (h7 : c ≤ ani.troops)
    (h8 : (effective_defense tn : ℚ) * rb < (c : ℚ) * ra) :
    conquer s uid tgt c ra rb ech =
      (.win (min (truncQ ((effective_defense tn : ℚ) * (15/100))) c)
            (min (truncQ ((c : ℚ) * (2/10))) tn.troops)
            (max 1 (truncQ ((tn.territory : ℚ) * (5/100)))),
       { s with nations := (updA (updA s.nations an (fun n =>
           { n with
               troops := n.troops -
                 min (truncQ ((effective_defense tn : ℚ) * (15/100))) c,
               territory := n.territory +
                 max 1 (truncQ ((tn.territory : ℚ) * (5/100))),
               elo := max 100 (n.elo + (ech ani.elo tn.elo 1).1) }))
         tgt (fun n =>
           { n with
               troops := n.troops -
                 min (truncQ ((c : ℚ) * (2/10))) tn.troops,
               territory := max 1 (n.territory -
                 max 1 (truncQ ((tn.territory : ℚ) * (5/100)))),
               elo := max 100 (n.elo + (ech ani.elo tn.elo 1).2) })) },
       true) := by
  have hall : ¬ (are_allies s an tgt = true) := by rw [h4]; simp
  have hc : ¬ c ≤ 0 := by omega
  have htr : ¬ ani.troops < c := by omega
  simp only [conquer, h1, h2, if_neg h3, if_neg hall, if_neg hc, h6,
    if_neg htr, if_pos h8]

theorem conquer_lose_state (s : GameState) (uid tgt : String) (c : Int)
    (ra rb : ℚ) (ech : ℚ → ℚ → ℚ → ℚ × ℚ) (an : String) (tn ani : Nation)
    (h1 : get_player_nation s uid = some an)
    (h2 : get_nation_info s tgt = some tn)
    (h3 : an ≠ tgt)
    (h4 : are_allies s an tgt = false)
    (h5 : 0 < c)
    (h6 : get_nation_info s an = some ani)
    (h7 : c ≤ ani.troops)
    (h8 : (c : ℚ) * ra ≤ (effective_defense tn : ℚ) * rb) :
    conquer s uid tgt c ra rb ech =
      (.lose (min (truncQ ((effective_defense tn : ℚ) * (2/10))) c)
             (min (truncQ ((c : ℚ) * (15/100))) (effective_defense tn))
             (max 1 (truncQ ((ani.territory : ℚ) * (3/100)))),
       { s with nations := (updA (updA s.nations an (fun n =>
           { n with
               troops := n.troops -
                 min (truncQ ((effective_defense tn : ℚ) * (2/10))) c,
               territory := max 1 (n.territory -
                 max 1 (truncQ ((ani.territory : ℚ) * (3/100)))),
               elo := max 100 (n.elo + (ech ani.elo tn.elo 0).1) }))
         tgt (fun n =>
           { n with
               troops := n.troops -
                 min (truncQ ((c : ℚ) * (15/100))) (effective_defense tn),
               territory := n.territory +
                 max 1 (truncQ ((ani.territory : ℚ) * (3/100))),
               elo := max 100 (n.elo + (ech ani.elo tn.elo 0).2) })) },
       true) := by
  have hall : ¬ (are_allies s an tgt = true) := by rw [h4]; simp
  have hc : ¬ c ≤ 0 := by omega
  have htr : ¬ ani.troops < c := by omega
  have hpow : ¬ ((effective_defense tn : ℚ) * rb < (c : ℚ) * ra) :=
    not_lt.mpr h8
  simp only [conquer, h1, h2, if_neg h3, if_neg hall, if_neg hc, h6,
    if_neg htr, if_neg hpow]

-- The key bound for the losing branch: with both rolls inside [0.8, 1.2] the
-- defender's casualty term never exceeds its troop count.  When troops ≥ 1
-- the effective defense is at most troops; when troops = 0 the losing
-- condition forces the committed count down to 1, whose truncated casualty
-- fraction is 0.

theorem lose_defender_bound (tn : Nation) (c : Int) (ra rb κ : ℚ)
    (ht : 0 ≤ tn.troops) (hdp : 0 ≤ tn.deployed_troops) (hc : 0 < c)
    (hra : 4/5 ≤ ra) (hrb : rb ≤ 6/5) (hk0 : 0 ≤ κ) (hk : κ ≤ 2/10)
    (hlose : (c : ℚ) * ra ≤ (effective_defense tn : ℚ) * rb) :
    min (truncQ ((c : ℚ) * κ)) (effective_defense tn) ≤ tn.troops := by
  rcases le_or_lt 1 tn.troops with h1 | h1
  · have heff : effective_defense tn ≤ tn.troops := by
      rw [effective_defense]; omega
    exact le_trans (min_le_right _ _) heff
  · have ht0 : tn.troops = 0 := by omega
    have heff : effective_defense tn = 1 := by rw [effective_defense]; omega
    rw [heff] at hlose
    rw [heff, ht0]
    have hc1 : (1 : Int) ≤ c := hc
    have h1c : (1 : ℚ) ≤ (c : ℚ) := by exact_mod_cast hc1
    push_cast at hlose
    have e1 : (c : ℚ) * (4/5) ≤ (c : ℚ) * ra :=
      mul_le_mul_of_nonneg_left hra (by linarith)
    have hcle : (c : ℚ) ≤ 3/2 := by linarith
    have hq0 : 0 ≤ (c : ℚ) * κ := mul_nonneg (by linarith) hk0
    have hq1 : (c : ℚ) * κ < 1 := by nlinarith
    rw [truncQ_eq_zero _ hq0 hq1]
    omega

/-- Decidable check: every nation of the state has non-negative troops. -/
def all_troops_nonneg (s : GameState) : Bool :=
  s.nations.all fun p => decide (0 ≤ p.2.troops)

/-- Decidable check: every nation has non-negative deployed troops. -/
def all_deployed_nonneg (s : GameState) : Bool :=
  s.nations.all fun p => decide (0 ≤ p.2.deployed_troops)

theorem all_troops_nonneg_iff (s : GameState) :
    all_troops_nonneg s = true ↔ ∀ p ∈ s.nations, 0 ≤ p.2.troops := by
  simp [all_troops_nonneg, List.all_eq_true]

theorem all_deployed_nonneg_iff (s : GameState) :
    all_deployed_nonneg s = true ↔
      ∀ p ∈ s.nations, 0 ≤ p.2.deployed_troops := by
  simp [all_deployed_nonneg, List.all_eq_true]

-- Non-negativity of every entry after the double update of a combat, given
-- bounds on the two images.

theorem troops_nonneg_after_double_upd (ns : List (String × Nation))
    (an tgt : String) (f g : Nation → Nation) (tn ani : Nation)
    (h3 : an ≠ tgt)
    (h2 : lookupA ns tgt = some tn)
    (h6 : lookupA ns an = some ani)
    (hall : ∀ p ∈ ns, 0 ≤ p.2.troops)
    (hf : 0 ≤ (f ani).troops) (hg : 0 ≤ (g tn).troops) :
    ∀ p ∈ updA (updA ns an f) tgt g, 0 ≤ p.2.troops := by
  intro p hp
  rcases mem_updA _ _ _ _ hp with hp1 | ⟨v, hv, rfl⟩
  · rcases mem_updA _ _ _ _ hp1 with hp0 | ⟨w, hw, rfl⟩
    · exact hall p hp0
    · rw [hw] at h6
      injection h6 with h6
      rw [h6]
      exact hf
  · rw [lookupA_upd_other _ _ _ _ (fun h => h3 h.symm), h2] at hv
    injection hv with hv
    rw [← hv]
    exact hg

/-- Claim C3: for every Battle and every Raid whose preconditions pass, with
both uniform rolls inside [0.8, 1.2], every nation's troop count stays
non-negative (in particular both combatants').  The pivotal case is a lost
fight against a defender with 0 troops: effective defense is clamped to 1,
so losing forces the committed count to 1 and the defender's truncated
casualty fraction to 0. -/
theorem combat_troops_nonneg (s : GameState) (uid tgt : String) (c : Int)
    (ra rb : ℚ) (ech : ℚ → ℚ → ℚ → ℚ × ℚ) (an : String) (tn ani : Nation)
    (h1 : get_player_nation s uid = some an)
    (h2 : get_nation_info s tgt = some tn)
    (h3 : an ≠ tgt)
    (h4 : are_allies s an tgt = false)
    (h5 : 0 < c)
    (h6 : get_nation_info s an = some ani)
    (h7 : c ≤ ani.troops)
    (hra1 : 4/5 ≤ ra) (hra2 : ra ≤ 6/5) (hrb1 : 4/5 ≤ rb) (hrb2 : rb ≤ 6/5)
    (htr : all_troops_nonneg s = true)
    (hdp : all_deployed_nonneg s = true) :
    all_troops_nonneg (pvp s uid tgt c ra rb ech).2.1 = true
    ∧ all_troops_nonneg (conquer s uid tgt c ra rb ech).2.1 = true := by
  have h2' : lookupA s.nations tgt = some tn := h2
  have h6' : lookupA s.nations an = some ani := h6
  have hall := (all_troops_nonneg_iff s).mp htr
  have halldp := (all_deployed_nonneg_iff s).mp hdp
  have ht : 0 ≤ tn.troops := hall (tgt, tn) (lookupA_mem _ _ _ h2')
  have htdp : 0 ≤ tn.deployed_troops := halldp (tgt, tn) (lookupA_mem _ _ _ h2')
  by_cases hwin : (effective_defense tn : ℚ) * rb < (c : ℚ) * ra
  · have hdp1 := pvp_win_state s uid tgt c ra rb ech an tn ani
      h1 h2 h3 h4 h5 h6 h7 hwin
    have hdc := conquer_win_state s uid tgt c ra rb ech an tn ani
      h1 h2 h3 h4 h5 h6 h7 hwin
    rw [hdp1, hdc]
    constructor
    · rw [all_troops_nonneg_iff]
      exact troops_nonneg_after_double_upd s.nations an tgt _ _ tn ani
        h3 h2' h6' hall
        (by show 0 ≤ ani.troops -
              min (truncQ ((effective_defense tn : ℚ) * (2/10))) c
            omega)
        (by show 0 ≤ tn.troops - min (truncQ ((c : ℚ) * (3/10))) tn.troops
            omega)
    · rw [all_troops_nonneg_iff]
      exact troops_nonneg_after_double_upd s.nations an tgt _ _ tn ani
        h3 h2' h6' hall
        (by show 0 ≤ ani.troops -
              min (truncQ ((effective_defense tn : ℚ) * (15/100))) c
            omega)
        (by show 0 ≤ tn.troops - min (truncQ ((c : ℚ) * (2/10))) tn.troops
            omega)
  · have hlose := not_lt.mp hwin
    have hdp1 := pvp_lose_state s uid tgt c ra rb ech an tn ani
      h1 h2 h3 h4 h5 h6 h7 hlose
    have hdc := conquer_lose_state s uid tgt c ra rb ech an tn ani
      h1 h2 h3 h4 h5 h6 h7 hlose
    have hb1 := lose_defender_bound tn c ra rb (2/10) ht htdp h5 hra1 hrb2
      (by norm_num) (by norm_num) hlose
    have hb2 := lose_defender_bound tn c ra rb (15/100) ht htdp h5 hra1 hrb2
      (by norm_num) (by norm_num) hlose
    rw [hdp1, hdc]
    constructor
    · rw [all_troops_nonneg_iff]
      exact troops_nonneg_after_double_upd s.nations an tgt _ _ tn ani
        h3 h2' h6' hall
        (by show 0 ≤ ani.troops -
              min (truncQ ((effective_defense tn : ℚ) * (3/10))) c
            omega)
        (by show 0 ≤ tn.troops -
              min (truncQ ((c : ℚ) * (2/10))) (effective_defense tn)
            omega)
    · rw [all_troops_nonneg_iff]
      exact troops_nonneg_after_double_upd s.nations an tgt _ _ tn ani
        h3 h2' h6' hall
        (by show 0 ≤ ani.troops -
              min (truncQ ((effective_defense tn : ℚ) * (2/10))) c
            omega)
        (by show 0 ≤ tn.troops -
              min (truncQ ((c : ℚ) * (15/100))) (effective_defense tn)
            omega)

/-- Witness for claim C3 at the concrete losing battle and raid of
`stateC1`. -/
theorem combat_troops_nonneg_witness :
    all_troops_nonneg (pvp stateC1 "u" "B" 10 1 1 ech0).2.1 = true
    ∧ all_troops_nonneg (conquer stateC1 "u" "B" 10 1 1 ech0).2.1 = true :=
  combat_troops_nonneg stateC1 "u" "B" 10 1 1 ech0 "A" nB100 nA100
    rfl rfl (by decide) (by decide) (by decide) rfl (by decide)
    (by norm_num) (by norm_num) (by norm_num) (by norm_num)
    (by decide) (by decide)

/-! ## Troop transfer (`TransferCommand.execute`) -/

/-- Outcome of `/transfer`. -/
inductive TransferResult where
  | noNation
  | crash
  | notLeader
  | notMember
  | nonPositive
  | insufficient
  | ok
deriving DecidableEq

/-- `TransferCommand.execute`: the leader moves `amt` troops from the
nation's pool to a member of the same nation — the amount is subtracted from
the nation and then added back to the nation the target member belongs to,
which the membership precondition has just forced to be the same nation.
(The Python code guards the second step with `if target_nation_info:`;
the guard's lookup key is the target player's `nation` field, equal to the
leader's nation name at this point.) -/
def transfer (s : GameState) (uid tgtUser : String) (amt : Int) :
    TransferResult × GameState × Bool :=
  match get_player_nation s uid with
  | none => (.noNation, s, false)
  | some pn =>
    match get_nation_info s pn with
    | none => (.crash, s, false)
    | some pni =>
      if pni.leader ≠ some uid then (.notLeader, s, false)
      else
        match get_player_info s tgtUser with
        | none => (.notMember, s, false)
        | some tp =>
          if tp.nation ≠ some pn then (.notMember, s, false)
          else if amt ≤ 0 then (.nonPositive, s, false)
          else if pni.troops < amt then (.insufficient, s, false)
          else
            let s1 : GameState :=
              { s with nations := (updA s.nations pn
                  (fun n => { n with troops := n.troops - amt })) }
            match get_nation_info s1 pn with
            | some _ =>
              (.ok,
               { s1 with nations := (updA s1.nations pn
                   (fun n => { n with troops := n.troops + amt })) },
               true)
            | none => (.ok, s1, true)

/-- Claim C6: a successful transfer leaves the whole world state exactly as
it was — the amount is debited from and immediately credited back to the
same nation, so every field of every record is unchanged. -/
theorem transfer_same_nation_noop (s : GameState) (uid tgtUser : String)
    (amt : Int) (h : (transfer s uid tgtUser amt).1 = .ok) :
    (transfer s uid tgtUser amt).2.1 = s := by
  rcases hpn : get_player_nation s uid with _ | pn
  · simp [transfer, hpn] at h
  · rcases hni : get_nation_info s pn with _ | pni
    · simp [transfer, hpn, hni] at h
    · by_cases hld : pni.leader ≠ some uid
      · simp [transfer, hpn, hni, hld] at h
      · rcases htp : get_player_info s tgtUser with _ | tp
        · simp [transfer, hpn, hni, hld, htp] at h
        · by_cases htn : tp.nation ≠ some pn
          · simp [transfer, hpn, hni, hld, htp, htn] at h
          · by_cases hamt : amt ≤ 0
            · simp [transfer, hpn, hni, hld, htp, htn, hamt] at h
            · by_cases hins : pni.troops < amt
              · simp [transfer, hpn, hni, hld, htp, htn, hamt, hins] at h
              · have hni' : lookupA s.nations pn = some pni := hni
                have hconv : get_nation_info
                    { s with nations := (updA s.nations pn
                        (fun n => { n with troops := n.troops - amt })) } pn
                    = some { pni with troops := pni.troops - amt } := by
                  show lookupA (updA s.nations pn _) pn = _
                  rw [lookupA_upd_self, hni']
                  rfl
                have hfun : ∀ v : Nation,
                    ({ v with troops := v.troops - amt + amt } : Nation) = v := by
                  intro v
                  rw [Int.sub_add_cancel]
                simp only [transfer, hpn, hni, if_neg hld, htp, if_neg htn,
                  if_neg hamt, if_neg hins, hconv]
                rw [updA_updA, updA_congr_id _ _ _ hfun]

/-- Claim C6 concrete state: `u` leads nation `T` with member `v`. -/
def stateC6 : GameState :=
  { players :=
      [("u", { user_id := "u", nation := some "T", rank := "士兵" }),
       ("v", { user_id := "v", nation := some "T", rank := "士兵" })],
    nations :=
      [("T", { name := "T", troops := 50, territory := 15,
               population := 1000000, elo := 1500, leader := some "u",
               members := ["u", "v"], ideology := "君主",
               deployed_troops := 0 })],
    alliances := [], last_event_time := 0 }

/-- Witness for claim C6: a concrete successful transfer returns the state
unchanged. -/
theorem transfer_same_nation_noop_witness :
    (transfer stateC6 "u" "v" 10).2.1 = stateC6 :=
  transfer_same_nation_noop stateC6 "u" "v" 10 (by decide)

/-! ## Alliance proposal (`AllyCommand.execute`) -/

/-- Outcome of `/ally`, one constructor per reply path, in source order. -/
inductive AllyResult where
  | noNation
  | selfAlly
  | targetMissing
  | alreadyAllied
  | crash
  | notLeader
  | targetNoLeader
  | ok
deriving DecidableEq

/-- `AllyCommand.execute`.  The checks run in source order: caller has a
nation; the target is not the caller's own nation; the target nation exists;
the two are not already allied; the caller is the leader; the target has a
leader.  On success the pair is added to the alliance set and saved. -/
def allyCmd (s : GameState) (uid tgt : String) : AllyResult × GameState × Bool :=
  match get_player_nation s uid with
  | none => (.noNation, s, false)
  | some pn =>
    if pn = tgt then (.selfAlly, s, false)
    else match get_nation_info s tgt with
      | none => (.targetMissing, s, false)
      | some tni =>
        if are_allies s pn tgt then (.alreadyAllied, s, false)
        else match get_nation_info s pn with
          | none => (.crash, s, false)
          | some pni =>
            if pni.leader ≠ some uid then (.notLeader, s, false)
            else if tni.leader = none then (.targetNoLeader, s, false)
            else (.ok, { s with alliances := (pn, tgt) :: s.alliances }, true)

/-- Claim C4 counterexample state: `u` is a member (not the leader) of
nation `A`, whose leader is `q`; nation `B` does not exist. -/
def stateC4 : GameState :=
  { players :=
      [("u", { user_id := "u", nation := some "A", rank := "士兵" }),
       ("q", { user_id := "q", nation := some "A", rank := "士兵" })],
    nations :=
      [("A", { name := "A", troops := 1000, territory := 15,
               population := 1000000, elo := 1500, leader := some "q",
               members := ["q", "u"], ideology := "共和",
               deployed_troops := 0 })],
    alliances := [], last_event_time := 0 }

/-- Claim C4 (counterexample): a non-leader caller naming a nonexistent
target receives the target-missing rejection, not the leader rejection —
the existence check runs before the leader check, contrary to the claimed
leader-first order. -/
theorem ally_check_order_cex :
    (allyCmd stateC4 "u" "B").1 = AllyResult.targetMissing
    ∧ AllyResult.targetMissing ≠ AllyResult.notLeader := by
  exact ⟨by decide, by decide⟩

/-- Claim C4 (amended): the precondition order is self-target, then target
existence, then already-allied, then the leader check: a caller who is not
the leader receives the leader rejection (with no mutation and no save)
exactly when the target is a distinct existing nation not already allied
with the caller's. -/
theorem ally_not_leader_rejected (s : GameState) (uid tgt : String)
    (pn : String) (tni pni : Nation)
    (h1 : get_player_nation s uid = some pn)
    (h2 : pn ≠ tgt)
    (h3 : get_nation_info s tgt = some tni)
    (h4 : are_allies s pn tgt = false)
    (h5 : get_nation_info s pn = some pni)
    (h6 : pni.leader ≠ some uid) :
    allyCmd s uid tgt = (.notLeader, s, false) := by
  have hall : ¬ (are_allies s pn tgt = true) := by rw [h4]; simp
  simp only [allyCmd, h1, if_neg h2, h3, if_neg hall, h5, if_pos h6]

/-- Witness for claim C4's amended theorem: `u` proposing to an existing,
unallied nation `C` is rejected as non-leader. -/
theorem ally_not_leader_rejected_witness :
    allyCmd
      { stateC4 with nations := stateC4.nations ++
          [("C", { name := "C", troops := 1000, territory := 15,
                   population := 1000000, elo := 1500, leader := some "w",
                   members := ["w"], ideology := "民主",
                   deployed_troops := 0 })] } "u" "C"
      = (.notLeader,
         { stateC4 with nations := stateC4.nations ++
             [("C", { name := "C", troops := 1000, territory := 15,
                      population := 1000000, elo := 1500, leader := some "w",
                      members := ["w"], ideology := "民主",
                      deployed_troops := 0 })] }, false) :=
  ally_not_leader_rejected _ "u" "C" "A"
    { name := "C", troops := 1000, territory := 15, population := 1000000,
      elo := 1500, leader := some "w", members := ["w"], ideology := "民主",
      deployed_troops := 0 }
    { name := "A", troops := 1000, territory := 15, population := 1000000,
      elo := 1500, leader := some "q", members := ["q", "u"],
      ideology := "共和", deployed_troops := 0 }
    (by decide) (by decide) (by decide) (by decide) (by decide) (by decide)

/-! ## Random event scheduler (`RandomEventAction.execute`) -/

/-- One entry of the `RANDOM_EVENTS` catalog (the display-only description
string is omitted). -/
structure EventDef where
  name : String
  effect : String
  multiplier : ℚ
deriving DecidableEq

/-- The fixed eight-entry event catalog, multipliers read as exact
decimals. -/
def RANDOM_EVENTS : List EventDef :=
  [⟨"丰收之年", "nation.troops", 11/10⟩,
   ⟨"瘟疫流行", "nation.troops", 9/10⟩,
   ⟨"技术突破", "nation.troops", 23/20⟩,
   ⟨"经济危机", "nation.troops", 17/20⟩,
   ⟨"领土扩张", "nation.territory", 21/20⟩,
   ⟨"自然灾害", "nation.territory", 19/20⟩,
   ⟨"人口增长", "nation.population", 11/10⟩,
   ⟨"人口减少", "nation.population", 9/10⟩]

/-- Read the nation field named by the event's stat key.  The catalog only
ever names the three resource fields; any other key fails closed. -/
def getStat (n : Nation) (key : String) : Option Int :=
  if key = "troops" then some n.troops
  else if key = "territory" then some n.territory
  else if key = "population" then some n.population
  else none

/-- Write the nation field named by the stat key. -/
def setStat (n : Nation) (key : String) (v : Int) : Nation :=
  if key = "troops" then { n with troops := v }
  else if key = "territory" then { n with territory := v }
  else if key = "population" then { n with population := v }
  else n

/-- The structured result of a triggered event. -/
structure EventOutcome where
  nation : String
  statKey : String
  oldValue : Int
  newValue : Int
deriving DecidableEq

/-- `RandomEventAction.execute`.  `r` is the fresh
`random.randint(min_interval, max_interval)` threshold draw, `pick` selects
the nation and `eidx` the catalog entry (both reduced modulo the list
lengths, mirroring `random.choice`).  If `now` has not reached
`last_event_time + r`, or there are no nations, nothing happens: no event,
no mutation, no save. -/
def randomEvent (s : GameState) (now : ℚ) (r : Int) (pick eidx : Nat) :
    Option EventOutcome × GameState × Bool :=
  if now < s.last_event_time + (r : ℚ) then (none, s, false)
  else if s.nations = [] then (none, s, false)
  else
    match s.nations.get? (pick % s.nations.length) with
    | none => (none, s, false)
    | some (nname, ninfo) =>
      match RANDOM_EVENTS.get? (eidx % RANDOM_EVENTS.length) with
      | none => (none, s, false)
      | some ev =>
        match ev.effect.splitOn "." with
        | [root, statKey] =>
          if root ≠ "nation" then (none, s, false)
          else match getStat ninfo statKey with
            | none => (none, s, false)
            | some oldV =>
              let newV0 := truncQ ((oldV : ℚ) * ev.multiplier)
              let newV :=
                if statKey = "troops" ∨ statKey = "territory"
                    ∨ statKey = "population"
                then max 1 newV0 else newV0
              (some ⟨nname, statKey, oldV, newV⟩,
               { s with
                   nations := (updA s.nations nname
                     (fun n => setStat n statKey newV)),
                   last_event_time := now },
               true)
        | _ => (none, s, false)

/-- Claim C10: when `now < last_event_time + minInterval`, every possible
fresh threshold draw `r` from `[minInterval, maxInterval]` (each draw is at
least `minInterval`) yields no event, an unchanged state and no write; and
the same no-op holds whenever there are no nations, whatever `now` and the
draw are. -/
theorem random_event_gate_noop :
    (∀ (s : GameState) (now : ℚ) (minI maxI r : Int) (pick eidx : Nat),
      minI ≤ r → r ≤ maxI → now < s.last_event_time + (minI : ℚ) →
      randomEvent s now r pick eidx = (none, s, false))
    ∧ (∀ (s : GameState) (now : ℚ) (r : Int) (pick eidx : Nat),
      s.nations = [] → randomEvent s now r pick eidx = (none, s, false)) := by
  constructor
  · intro s now minI maxI r pick eidx h1 _ h3
    have hmr : (minI : ℚ) ≤ (r : ℚ) := by exact_mod_cast h1
    have hlt : now < s.last_event_time + (r : ℚ) := by linarith
    simp only [randomEvent, if_pos hlt]
  · intro s now r pick eidx h
    by_cases hg : now < s.last_event_time + (r : ℚ)
    · simp only [randomEvent, if_pos hg]
    · simp only [randomEvent, if_neg hg, if_pos h]

/-- Claim C10 concrete state: one nation, last event at time 1000. -/
def stateC10 : GameState :=
  { players := [],
    nations :=
      [("N", { name := "N", troops := 1000, territory := 15,
               population := 1000000, elo := 1500, leader := none,
               members := [], ideology := "共和", deployed_troops := 0 })],
    alliances := [], last_event_time := 1000 }

/-- Witness for claim C10: the gate holds at `now = 10` with the minimal
draw 60 of the interval [60, 120], and the empty-world no-op holds far past
the gate. -/
theorem random_event_gate_noop_witness :
    randomEvent stateC10 10 60 0 0 = (none, stateC10, false)
    ∧ randomEvent { stateC10 with nations := [] } 99999 60 0 0
        = (none, { stateC10 with nations := [] }, false) :=
  ⟨random_event_gate_noop.1 stateC10 10 60 120 60 0 0 (by decide) (by decide)
     (by decide),
   random_event_gate_noop.2 { stateC10 with nations := [] } 99999 60 0 0 rfl⟩
